import Mathlib

/-!
Shallow embedding of `src/agent.js` (VPS Monitor node agent), covering the
startup environment validation, the configuration construction, the latency
probe, the registration client, the report transmission and the
reconnect/backoff state machine, together with theorems settling the claims
about the reporting lifecycle.
-/

namespace Agent

/-! ### Environment and startup validation (src/agent.js lines 19-51)

The process environment is modelled as one optional string per recognized
variable.  A variable that is unset is `none`; a variable set to the empty
string is `some ""` (falsy in JS, hence treated like unset by the code's
truthiness checks).
-/

structure Env where
  SERVER_URL : Option String
  API_KEY : Option String
  NODE_NAME : Option String
  REPORT_INTERVAL : Option String
  LATENCY_TEST : Option String
  DEBUG : Option String
  deriving DecidableEq, Repr

/-- A whitespace-only (or empty) string: exactly the strings `s` with
`s.trim() === ''` in JS.  (ASCII whitespace via `Char.isWhitespace`; the
exotic Unicode whitespace JS also trims plays no role in the claims.) -/
def isBlank (s : String) : Bool :=
  s.data.all Char.isWhitespace

/-- Line 22: `!process.env[key] || process.env[key].trim() === ''` — the
variable counts as present when it is set and not blank (`s = ""` implies
`s.trim() === ''`, so one test covers both falsiness and blankness). -/
def envPresent : Option String → Bool
  | none => false
  | some s => !(isBlank s)

/-- A hexadecimal character as accepted by the case-insensitive regex
`/^[a-f0-9]{64}$/i` on line 29. -/
def isHexChar (c : Char) : Bool :=
  c.isDigit || (('a' ≤ c && c ≤ 'f') || ('A' ≤ c && c ≤ 'F'))

/-- Line 29: `process.env.API_KEY.length !== 64 || !/^[a-f0-9]{64}$/i.test(...)`.
The anchored 64-repetition regex on a string of length 64 is equivalent to
every character being hexadecimal. -/
def apiKeyValid (s : String) : Bool :=
  s.length == 64 && s.data.all isHexChar

/-- Line 34: `SERVER_URL` must start with `http://` or `https://`
(`String.startsWith`, expressed over the character lists). -/
def serverUrlValid (s : String) : Bool :=
  List.isPrefixOf "http://".data s.data || List.isPrefixOf "https://".data s.data

/-- Lines 19-37 in order: the three `requiredEnv` presence checks
(`SERVER_URL`, `API_KEY`, `NODE_NAME`), then the API-key format check, then
the URL scheme check.  The process calls `process.exit(1)` before any network
activity exactly when this returns `false`.  (`getD ""` is only reached when
the presence check already succeeded, so the default is never consulted on
the accepting path.) -/
def startupOk (e : Env) : Bool :=
  envPresent e.SERVER_URL && envPresent e.API_KEY && envPresent e.NODE_NAME &&
  apiKeyValid (e.API_KEY.getD "") && serverUrlValid (e.SERVER_URL.getD "")

/-- Leading and trailing whitespace removed: JS `s.trim()`, computed
structurally over the character list. -/
def jsTrim (s : String) : String :=
  String.mk (((s.data.dropWhile Char.isWhitespace).reverse.dropWhile
    Char.isWhitespace).reverse)

/-- Line 45: `(process.env.NODE_NAME || os.hostname()).trim()` — the JS `||`
falls through to the host name when `NODE_NAME` is unset or the empty
string.  (Because `startupOk` already requires `NODE_NAME` to be present and
non-blank, the host-name fallback is dead code; see C4.) -/
def nodeNameConfig (e : Env) (hostname : String) : String :=
  jsTrim (match e.NODE_NAME with
          | some s => if s == "" then hostname else s
          | none => hostname)

/-! ### JS numbers and `REPORT_INTERVAL` (line 46)

`parseInt` can produce `NaN`, which then propagates through `Math.max`; a
JS number relevant here is therefore either an exact integer or `NaN`.
(All values actually produced on this path — parsed integers and the
constants 500/1000 — are exactly representable, so `ℤ` is faithful.) -/

inductive JSNum where
  | num (n : ℤ)
  | nan
  deriving DecidableEq, Repr

/-- JS `x || d` for a string environment value: unset and `""` are falsy. -/
def jsOrDefault (v : Option String) (d : String) : String :=
  match v with
  | none => d
  | some s => if s == "" then d else s

/-- Value of a decimal digit character, if it is one. -/
def decDigitVal (c : Char) : Option ℕ :=
  if c.isDigit then some (c.toNat - 48) else none

/-- Value of a hexadecimal digit character, if it is one. -/
def hexDigitVal (c : Char) : Option ℕ :=
  if c.isDigit then some (c.toNat - 48)
  else if 'a' ≤ c && c ≤ 'f' then some (c.toNat - 87)
  else if 'A' ≤ c && c ≤ 'F' then some (c.toNat - 55)
  else none

/-- Accumulate the value of the longest digit run at the head of the list;
`none` when the first character is not a digit (that is `parseInt`'s `NaN`
case). -/
def leadingVal (dig : Char → Option ℕ) (base : ℕ) : List Char → Option ℕ → Option ℕ
  | [], acc => acc
  | c :: cs, acc =>
    match dig c with
    | some d => leadingVal dig base cs (some ((acc.getD 0) * base + d))
    | none => acc

/-- JS `parseInt(s)` with no radix argument: skip leading whitespace, accept
an optional sign, interpret a `0x`/`0X` prefix as hexadecimal, otherwise read
the longest leading run of decimal digits; `NaN` when no digit is read.
(Digit strings long enough to lose double precision are not modelled; they
cannot occur in the claims' inputs.) -/
def jsParseInt (s : String) : JSNum :=
  let t := jsTrim s
  let signed : ℤ × List Char :=
    match t.data with
    | '-' :: cs => (-1, cs)
    | '+' :: cs => (1, cs)
    | cs => (1, cs)
  let hex : Option (List Char) :=
    match signed.2 with
    | '0' :: 'x' :: cs => some cs
    | '0' :: 'X' :: cs => some cs
    | _ => none
  match hex with
  | some cs =>
    match leadingVal hexDigitVal 16 cs none with
    | some v => JSNum.num (signed.1 * v)
    | none => JSNum.nan
  | none =>
    match leadingVal decDigitVal 10 signed.2 none with
    | some v => JSNum.num (signed.1 * v)
    | none => JSNum.nan

/-- JS `Math.max(a, x)` with `a` a plain integer: `NaN` if `x` is `NaN`. -/
def jsMathMax (a : ℤ) : JSNum → JSNum
  | JSNum.num n => JSNum.num (max a n)
  | JSNum.nan => JSNum.nan

/-- Line 46: `Math.max(500, parseInt(process.env.REPORT_INTERVAL || '1000'))`. -/
def reportIntervalConfig (v : Option String) : JSNum :=
  jsMathMax 500 (jsParseInt (jsOrDefault v "1000"))

/-- Line 47: `process.env.LATENCY_TEST !== 'false'`. -/
def latencyTestConfig (v : Option String) : Bool :=
  match v with
  | some s => !(s == "false")
  | none => true

/-- `JSNum.num n` with `500 ≤ n`; false for `NaN` (every JS comparison with
`NaN` is false). -/
def jsGe500 : JSNum → Bool
  | JSNum.num n => 500 ≤ n
  | JSNum.nan => false

/-! ### HTTP exchanges and axios resolution

An HTTP interaction either produces a response (status plus parsed body) or
fails at the transport level (connection error / timeout).  `await
axios.request(...)` with the default `validateStatus` returns the body only
for a 2xx status and throws otherwise — a non-2xx response and a transport
error both land in the `catch` block of the caller. -/

inductive HttpExchange (β : Type) where
  | response (status : ℕ) (body : β)
  | netError
  deriving DecidableEq, Repr

/-- The value `await axios....` evaluates to, `none` meaning the `await`
threw (transport error, timeout, or non-2xx status under the default
`validateStatus`). -/
def axiosAwait {β : Type} : HttpExchange β → Option β
  | HttpExchange.response st b => if 200 ≤ st ∧ st < 300 then some b else none
  | HttpExchange.netError => none

/-! ### Agent state and the reconnect/backoff path (lines 74-75, 233-242) -/

/-- CONFIG.MAX_RECONNECT_ATTEMPTS (line 49). -/
def MAX_RECONNECT_ATTEMPTS : ℕ := 20

/-- CONFIG.RECONNECT_BASE_DELAY in milliseconds (line 50). -/
def RECONNECT_BASE_DELAY : ℚ := 3000

/-- Line 238: `CONFIG.RECONNECT_BASE_DELAY * Math.pow(1.5, reconnectAttempts)`.
For every exponent reached before the attempt cap (k ≤ 20), both
`Math.pow(1.5, k)` (= 3^k / 2^k, numerator below 2^53) and the product with
3000 are exact in binary floating point, so `ℚ` models the computation
exactly. -/
def reconnectDelay (k : ℕ) : ℚ := RECONNECT_BASE_DELAY * (3 / 2) ^ k

/-- The mutable module-level state (lines 74-75) plus the process exit
status: `exitCode = some c` once `process.exit(c)` has run, after which no
further agent code executes. -/
structure AgentState where
  isRegistered : Bool
  reconnectAttempts : ℕ
  exitCode : Option ℕ
  deriving DecidableEq, Repr

/-- The state at process start (lines 74-75). -/
def initState : AgentState := ⟨false, 0, none⟩

/-- Lines 233-242, `scheduleReconnect()`: at or above the attempt cap the
process exits with status 1 and nothing more is scheduled; below the cap the
delay is computed from the current counter, the counter is incremented, and
a one-shot retry of `sendReport` is scheduled after that delay (returned as
`some delay`). -/
def scheduleReconnect (s : AgentState) : AgentState × Option ℚ :=
  if MAX_RECONNECT_ATTEMPTS ≤ s.reconnectAttempts then
    ({ s with exitCode := some 1 }, none)
  else
    ({ s with reconnectAttempts := s.reconnectAttempts + 1 },
     some (reconnectDelay s.reconnectAttempts))

/-! ### Latency probe (lines 80-89) -/

/-- Lines 80-89, `measureLatency()`: 0 without touching the network when the
latency test is disabled; otherwise a GET of the base URL whose elapsed
wall-clock time is `elapsed` — the `try` returns `elapsed` when the `await`
resolves (2xx only, under the default `validateStatus`) and the `catch`
returns the sentinel 9999 when it throws (non-2xx response, timeout, or
connection failure). -/
def measureLatency (latencyTest : Bool) (exch : HttpExchange Unit) (elapsed : ℕ) : ℕ :=
  if latencyTest = false then 0
  else
    match axiosAwait exch with
    | some _ => elapsed
    | none => 9999

/-! ### Registration (lines 94-119) -/

/-- The registration response body; only the `success` flag influences
control flow (`node_id` and `error` are merely logged). -/
structure RegResponse where
  success : Bool
  deriving DecidableEq, Repr

/-- Lines 94-119, `registerNode()`: on a resolved response with
`data.success` truthy, set `isRegistered = true`, reset `reconnectAttempts`
to 0 and return `true`; on a resolved response without `success` or on a
thrown request, leave the state unchanged and return `false`. -/
def registerStep (s : AgentState) (rr : HttpExchange RegResponse) : AgentState × Bool :=
  match axiosAwait rr with
  | some body =>
    if body.success then ({ s with isRegistered := true, reconnectAttempts := 0 }, true)
    else (s, false)
  | none => (s, false)

/-! ### One report cycle (lines 199-231) -/

/-- The report response body.  `sendReport` never reads it — that fact is
the subject of C1 — but it is carried so the theorems can quantify over it. -/
structure ReportResponse where
  success : Bool
  deriving DecidableEq, Repr

/-- Everything the outside world feeds one invocation of `sendReport`: the
registration exchange (used only if unregistered), the metrics snapshot
(`none` is `getSystemStats()` returning null; its contents never influence
control flow), the latency-probe exchange with its elapsed time, and the
report-POST exchange. -/
structure CycleEnv where
  reg : HttpExchange RegResponse
  stats : Option Unit
  latencyExch : HttpExchange Unit
  elapsed : ℕ
  post : HttpExchange ReportResponse
  deriving DecidableEq, Repr

/-- How one invocation of `sendReport` ended. -/
inductive CycleOutcome where
  | regFailed
  | collectFailed
  | reportOk
  | reportFailed
  deriving DecidableEq, Repr

/-- Lines 200-206: the registration phase of a cycle — skipped when already
registered, otherwise one `registerNode()` attempt.  The Bool is whether the
cycle may proceed past registration. -/
def ensureRegistered (s : AgentState) (rr : HttpExchange RegResponse) :
    AgentState × Bool :=
  if s.isRegistered then (s, true) else registerStep s rr

/-- Lines 199-231, `sendReport()` as one sequential invocation: ensure
registered (failure diverts to `scheduleReconnect` and returns), abort
silently on a null snapshot, measure latency, POST the report; a resolved
POST resets `reconnectAttempts` (line 225), a thrown POST sets
`isRegistered = false` and diverts to `scheduleReconnect` (lines 228-229).
The result is the final state, the path taken, and the backoff retry delay
when one was scheduled. -/
def sendReport (latencyTest : Bool) (env : CycleEnv) (s : AgentState) :
    AgentState × CycleOutcome × Option ℚ :=
  if (ensureRegistered s env.reg).2 = false then
    ((scheduleReconnect (ensureRegistered s env.reg).1).1, CycleOutcome.regFailed,
     (scheduleReconnect (ensureRegistered s env.reg).1).2)
  else
    match env.stats with
    | none => ((ensureRegistered s env.reg).1, CycleOutcome.collectFailed, none)
    | some _ =>
      -- line 211: the measured latency goes into the POST body; it does not
      -- influence control flow or state, so its value is not threaded further.
      match measureLatency latencyTest env.latencyExch env.elapsed, axiosAwait env.post with
      | _, some _ =>
        ({ (ensureRegistered s env.reg).1 with reconnectAttempts := 0 },
         CycleOutcome.reportOk, none)
      | _, none =>
        ((scheduleReconnect { (ensureRegistered s env.reg).1 with isRegistered := false }).1,
         CycleOutcome.reportFailed,
         (scheduleReconnect { (ensureRegistered s env.reg).1 with isRegistered := false }).2)

/-- An environment in which every network exchange fails at the transport
level (collector unreachable) while metrics collection still succeeds. -/
def failEnv : CycleEnv :=
  ⟨HttpExchange.netError, some (), HttpExchange.netError, 0, HttpExchange.netError⟩

/-- One consecutive-failure step: if the process has exited nothing runs;
otherwise one `sendReport` invocation against the unreachable collector. -/
def cycleFail (s : AgentState) : AgentState :=
  match s.exitCode with
  | some _ => s
  | none => (sendReport true failEnv s).1

/-- The agent state after `n` consecutive recoverable failures starting from
process start. -/
def afterFailures : ℕ → AgentState
  | 0 => initState
  | n + 1 => cycleFail (afterFailures n)

/-! ### Interleaved invocations (lines 241, 271-272)

`setInterval(sendReport, ...)` and the one-shot `setTimeout(sendReport,
delay)` of the backoff path each start an independent async invocation of
`sendReport`; a second invocation can start while the first is suspended at
an `await`.  Code between two `await` boundaries runs atomically (Node is
single-threaded), so an invocation is a program counter over its atomic
segments, and a system run is an interleaving of segment executions over the
shared module-level state.  There is no in-progress flag anywhere in
`sendReport`: no segment tests whether another invocation is running. -/

inductive PC where
  | start
  | afterReg
  | afterStats
  | afterLatency
  | afterPost
  | done
  deriving DecidableEq, Repr

/-- One atomic segment of a `sendReport` invocation: from one `await`
boundary (or entry) to the next.  `start` performs the line-200 registration
check and issues the corresponding request; each `afterX` segment consumes
the result of the awaited call and runs the following synchronous code
(including a synchronous `scheduleReconnect` where the source calls it). -/
def threadStep (env : CycleEnv) (s : AgentState) : PC → AgentState × PC
  | PC.start =>
    if s.isRegistered then (s, PC.afterStats) else (s, PC.afterReg)
  | PC.afterReg =>
    if (registerStep s env.reg).2 then ((registerStep s env.reg).1, PC.afterStats)
    else ((scheduleReconnect (registerStep s env.reg).1).1, PC.done)
  | PC.afterStats =>
    match env.stats with
    | none => (s, PC.done)
    | some _ => (s, PC.afterLatency)
  | PC.afterLatency => (s, PC.afterPost)
  | PC.afterPost =>
    match axiosAwait env.post with
    | some _ => ({ s with reconnectAttempts := 0 }, PC.done)
    | none => ((scheduleReconnect { s with isRegistered := false }).1, PC.done)
  | PC.done => (s, PC.done)

/-- Two in-flight `sendReport` invocations over the shared state. -/
structure Sys where
  shared : AgentState
  pc0 : PC
  pc1 : PC
  deriving DecidableEq, Repr

/-- Run one atomic segment of invocation 0 (`true`) or invocation 1
(`false`); once the process has exited nothing runs. -/
def sysStep (e0 e1 : CycleEnv) (t : Bool) (sys : Sys) : Sys :=
  match sys.shared.exitCode with
  | some _ => sys
  | none =>
    if t then
      let r := threadStep e0 sys.shared sys.pc0
      ⟨r.1, r.2, sys.pc1⟩
    else
      let r := threadStep e1 sys.shared sys.pc1
      ⟨r.1, sys.pc0, r.2⟩

/-- Run an interleaving, given as the list of which invocation's segment
executes at each step. -/
def runTrace (e0 e1 : CycleEnv) : List Bool → Sys → Sys
  | [], sys => sys
  | t :: ts, sys => runTrace e0 e1 ts (sysStep e0 e1 t sys)

/-- The states the shared module-level state can reach: the initial state,
closed under executing any atomic segment of any invocation against any
environment.  (This over-approximates the real reachable set — any program
counter is allowed at any time — so an invariant proved over it holds of
every actual run.) -/
inductive Reachable : AgentState → Prop
  | init : Reachable initState
  | step (env : CycleEnv) (pc : PC) {s : AgentState} :
      Reachable s → Reachable (threadStep env s pc).1

/-! ### Helper lemmas -/

/-- A successful registration attempt ends in the registered state with the
attempt counter reset. -/
theorem registerStep_of_success {s : AgentState} {rr : HttpExchange RegResponse}
    (h : (registerStep s rr).2 = true) :
    (registerStep s rr).1 = { s with isRegistered := true, reconnectAttempts := 0 } := by
  unfold registerStep at h ⊢
  cases haw : axiosAwait rr with
  | none => rw [haw] at h; exact Bool.noConfusion h
  | some body =>
    rw [haw] at h
    cases hb : body.success with
    | true => simp [hb]
    | false => simp [hb] at h

/-- A failed registration attempt leaves the state untouched. -/
theorem registerStep_of_failure {s : AgentState} {rr : HttpExchange RegResponse}
    (h : (registerStep s rr).2 = false) :
    (registerStep s rr).1 = s := by
  unfold registerStep at h ⊢
  cases haw : axiosAwait rr with
  | none => rfl
  | some body =>
    rw [haw] at h
    cases hb : body.success with
    | true => simp [hb] at h
    | false => simp [hb]

/-- When the registration phase lets the cycle proceed, the state is
registered. -/
theorem ensureRegistered_isRegistered {s : AgentState} {rr : HttpExchange RegResponse}
    (h : (ensureRegistered s rr).2 = true) :
    (ensureRegistered s rr).1.isRegistered = true := by
  unfold ensureRegistered at h ⊢
  by_cases hs : s.isRegistered = true
  · simp [hs]
  · simp only [hs, if_neg, Bool.false_eq_true, if_false] at h ⊢
    rw [registerStep_of_success h]

/-- The registration phase never increases the attempt counter. -/
theorem ensureRegistered_attempts_le (s : AgentState) (rr : HttpExchange RegResponse) :
    (ensureRegistered s rr).1.reconnectAttempts ≤ s.reconnectAttempts := by
  unfold ensureRegistered
  by_cases hs : s.isRegistered = true
  · simp [hs]
  · simp only [hs, Bool.false_eq_true, if_false]
    by_cases h2 : (registerStep s rr).2 = true
    · rw [registerStep_of_success h2]; exact Nat.zero_le _
    · rw [registerStep_of_failure (by simpa using h2)]

/-- On an already-registered state the registration phase is a no-op. -/
theorem ensureRegistered_of_registered {s : AgentState} (rr : HttpExchange RegResponse)
    (h : s.isRegistered = true) : ensureRegistered s rr = (s, true) := by
  unfold ensureRegistered
  simp [h]

/-- `scheduleReconnect` never changes the registration flag. -/
theorem scheduleReconnect_isRegistered (s : AgentState) :
    (scheduleReconnect s).1.isRegistered = s.isRegistered := by
  unfold scheduleReconnect
  split <;> rfl

/-- `scheduleReconnect` keeps the attempt counter within the cap. -/
theorem scheduleReconnect_attempts_le {s : AgentState}
    (h : s.reconnectAttempts ≤ MAX_RECONNECT_ATTEMPTS) :
    (scheduleReconnect s).1.reconnectAttempts ≤ MAX_RECONNECT_ATTEMPTS := by
  unfold scheduleReconnect MAX_RECONNECT_ATTEMPTS at *
  split
  · simpa using h
  · next hlt => simp only []; omega

/-- Every atomic segment keeps the attempt counter within the cap. -/
theorem threadStep_attempts_le (env : CycleEnv) (pc : PC) {s : AgentState}
    (h : s.reconnectAttempts ≤ MAX_RECONNECT_ATTEMPTS) :
    (threadStep env s pc).1.reconnectAttempts ≤ MAX_RECONNECT_ATTEMPTS := by
  cases pc with
  | start => simp only [threadStep]; split <;> exact h
  | afterReg =>
    simp only [threadStep]
    by_cases h2 : (registerStep s env.reg).2 = true
    · simp only [h2, if_true]
      rw [registerStep_of_success h2]
      exact Nat.zero_le _
    · simp only [h2, if_false]
      apply scheduleReconnect_attempts_le
      rw [registerStep_of_failure (by simpa using h2)]
      exact h
  | afterStats => simp only [threadStep]; cases env.stats <;> exact h
  | afterLatency => exact h
  | afterPost =>
    simp only [threadStep]
    cases axiosAwait env.post with
    | some b => exact Nat.zero_le _
    | none => exact scheduleReconnect_attempts_le h
  | done => exact h

/-- The first 20 consecutive failures each just advance the attempt counter:
after `k ≤ 20` consecutive failures from process start the agent is
unregistered, counts `k` attempts, and has not exited. -/
theorem afterFailures_eq : ∀ k, k < 21 → afterFailures k = ⟨false, k, none⟩ := by
  decide

/-- An axios `await` resolves exactly for responses with a 2xx status. -/
theorem axiosAwait_isSome_iff {β : Type} (x : HttpExchange β) :
    (axiosAwait x).isSome = true ↔
    ∃ st b, x = HttpExchange.response st b ∧ 200 ≤ st ∧ st < 300 := by
  cases x with
  | response st b =>
    unfold axiosAwait
    by_cases h2 : 200 ≤ st ∧ st < 300
    · simp only [if_pos h2, Option.isSome_some, true_iff]
      exact ⟨st, b, rfl, h2.1, h2.2⟩
    · simp only [if_neg h2]
      constructor
      · intro hh
        exact Bool.noConfusion hh
      · rintro ⟨st2, b2, heq, hlo, hhi⟩
        cases heq
        exact absurd ⟨hlo, hhi⟩ h2
  | netError =>
    simp [axiosAwait]

/-- A cycle whose registration phase fails diverts to `scheduleReconnect`
without touching collection or transmission. -/
theorem sendReport_regFailed {lt : Bool} {env : CycleEnv} {s : AgentState}
    (hens : (ensureRegistered s env.reg).2 = false) :
    sendReport lt env s =
      ((scheduleReconnect (ensureRegistered s env.reg).1).1, CycleOutcome.regFailed,
       (scheduleReconnect (ensureRegistered s env.reg).1).2) := by
  unfold sendReport
  rw [if_pos hens]

/-- A cycle that is (or just became) registered and gets a null snapshot
ends at once: no transmission, no backoff. -/
theorem sendReport_collectFailed {lt : Bool} {env : CycleEnv} {s : AgentState}
    (hens : (ensureRegistered s env.reg).2 = true) (hstats : env.stats = none) :
    sendReport lt env s =
      ((ensureRegistered s env.reg).1, CycleOutcome.collectFailed, none) := by
  unfold sendReport
  rw [if_neg (by simp [hens]), hstats]

/-- A cycle whose report POST resolves (2xx) resets the attempt counter and
ends without scheduling anything. -/
theorem sendReport_post_resolved {lt : Bool} {env : CycleEnv} {s : AgentState}
    {b : ReportResponse} (hens : (ensureRegistered s env.reg).2 = true)
    (hstats : env.stats = some ()) (hpost : axiosAwait env.post = some b) :
    sendReport lt env s =
      ({ (ensureRegistered s env.reg).1 with reconnectAttempts := 0 },
       CycleOutcome.reportOk, none) := by
  unfold sendReport
  rw [if_neg (by simp [hens]), hstats, hpost]

/-- A cycle whose report POST throws de-registers the agent and diverts to
`scheduleReconnect`. -/
theorem sendReport_post_thrown {lt : Bool} {env : CycleEnv} {s : AgentState}
    (hens : (ensureRegistered s env.reg).2 = true) (hstats : env.stats = some ())
    (hpost : axiosAwait env.post = none) :
    sendReport lt env s =
      ((scheduleReconnect { (ensureRegistered s env.reg).1 with isRegistered := false }).1,
       CycleOutcome.reportFailed,
       (scheduleReconnect { (ensureRegistered s env.reg).1 with isRegistered := false }).2) := by
  unfold sendReport
  rw [if_neg (by simp [hens]), hstats, hpost]

/-! ### Claims -/

/-- Claim C1, counterexample: a collector response to the report POST with
HTTP status 200 and body `{success:false}` (a non-success application
response) is treated as a successful transmission — the cycle takes the
success path, resets `reconnectAttempts` from 5 to 0 and keeps the node
registered — refuting the claim that every response whose body lacks
`success:true` is treated as failed. -/
theorem C1_counterexample :
    sendReport true
      ⟨HttpExchange.netError, some (), HttpExchange.netError, 0,
       HttpExchange.response 200 ⟨false⟩⟩ ⟨true, 5, none⟩
      = (⟨true, 0, none⟩, CycleOutcome.reportOk, none) := by
  decide

/-- Claim C1, amended: `sendReport` never reads the report response body;
the transmission succeeds exactly when the POST resolves, i.e. exactly for a
response with a 2xx HTTP status (any body), and then the cycle resets
`reconnectAttempts` to 0; every non-2xx response and every transport error
is treated as failure. -/
theorem C1_theorem (lt : Bool) (env : CycleEnv) (s : AgentState)
    (hreg : s.isRegistered = true) (hstats : env.stats = some ()) :
    ((sendReport lt env s).2.1 = CycleOutcome.reportOk ↔
      ∃ st body, env.post = HttpExchange.response st body ∧ 200 ≤ st ∧ st < 300) ∧
    ((sendReport lt env s).2.1 = CycleOutcome.reportOk →
      (sendReport lt env s).1 = { s with reconnectAttempts := 0 }) := by
  have hens : (ensureRegistered s env.reg).2 = true := by
    rw [ensureRegistered_of_registered env.reg hreg]
  have h1 : (ensureRegistered s env.reg).1 = s := by
    rw [ensureRegistered_of_registered env.reg hreg]
  cases hpost : axiosAwait env.post with
  | some b =>
    rw [sendReport_post_resolved hens hstats hpost, h1]
    refine ⟨⟨fun _ => ?_, fun _ => rfl⟩, fun _ => rfl⟩
    exact (axiosAwait_isSome_iff env.post).mp (by rw [hpost]; rfl)
  | none =>
    rw [sendReport_post_thrown hens hstats hpost]
    constructor
    · constructor
      · intro hcontra
        exact CycleOutcome.noConfusion hcontra
      · rintro ⟨st, body, heq, hlo, hhi⟩
        have : (axiosAwait env.post).isSome = true :=
          (axiosAwait_isSome_iff env.post).mpr ⟨st, body, heq, hlo, hhi⟩
        rw [hpost] at this
        exact Bool.noConfusion this
    · intro hcontra
      exact absurd hcontra (by exact fun hh => CycleOutcome.noConfusion hh)

/-- Claim C1, witness: a 204 response with body `{success:false}` makes the
cycle end on the success path. -/
theorem C1_witness :
    (sendReport true
      ⟨HttpExchange.netError, some (), HttpExchange.netError, 0,
       HttpExchange.response 204 ⟨false⟩⟩ ⟨true, 0, none⟩).2.1 = CycleOutcome.reportOk :=
  (C1_theorem true _ _ rfl rfl).1.mpr ⟨204, ⟨false⟩, rfl, by decide, by decide⟩

/-- Claim C2, counterexample: with the collector unreachable, the
interleaving in which the interval timer and a second timer each start a
cycle before either finishes (after two segments both invocations sit
suspended at their registration `await`) has BOTH invocations run to
completion — neither defers nor no-ops — and `reconnectAttempts` ends at 2
for this single failure episode, refuting the serialization claim. -/
theorem C2_counterexample :
    (runTrace failEnv failEnv [true, false]
      ⟨initState, PC.start, PC.start⟩).pc0 = PC.afterReg ∧
    (runTrace failEnv failEnv [true, false]
      ⟨initState, PC.start, PC.start⟩).pc1 = PC.afterReg ∧
    (runTrace failEnv failEnv [true, false, true, false]
      ⟨initState, PC.start, PC.start⟩).pc0 = PC.done ∧
    (runTrace failEnv failEnv [true, false, true, false]
      ⟨initState, PC.start, PC.start⟩).pc1 = PC.done ∧
    (runTrace failEnv failEnv [true, false, true, false]
      ⟨initState, PC.start, PC.start⟩).shared.reconnectAttempts = 2 := by
  decide

/-- Claim C2, amended: `sendReport` has no reentrancy guard, so two
near-simultaneous triggers both execute the full cycle; from any attempt
count `a < 19`, the overlapped all-fail interleaving completes both
invocations and increments `reconnectAttempts` twice, to `a + 2`. -/
theorem C2_theorem : ∀ a : ℕ, a < 19 →
    (runTrace failEnv failEnv [true, false, true, false]
      ⟨⟨false, a, none⟩, PC.start, PC.start⟩).pc0 = PC.done ∧
    (runTrace failEnv failEnv [true, false, true, false]
      ⟨⟨false, a, none⟩, PC.start, PC.start⟩).pc1 = PC.done ∧
    (runTrace failEnv failEnv [true, false, true, false]
      ⟨⟨false, a, none⟩, PC.start, PC.start⟩).shared.reconnectAttempts = a + 2 := by
  decide

/-- Claim C2, witness: the amended statement at attempt count 0. -/
theorem C2_witness :
    (runTrace failEnv failEnv [true, false, true, false]
      ⟨⟨false, 0, none⟩, PC.start, PC.start⟩).pc0 = PC.done ∧
    (runTrace failEnv failEnv [true, false, true, false]
      ⟨⟨false, 0, none⟩, PC.start, PC.start⟩).pc1 = PC.done ∧
    (runTrace failEnv failEnv [true, false, true, false]
      ⟨⟨false, 0, none⟩, PC.start, PC.start⟩).shared.reconnectAttempts = 2 :=
  C2_theorem 0 (by decide)

/-- Claim C3, counterexample: an HTTP response with status 500 after 42
elapsed milliseconds makes `measureLatency` return the sentinel 9999, not
the elapsed time — refuting the claim that every HTTP response, regardless
of status, yields the elapsed milliseconds. -/
theorem C3_counterexample :
    measureLatency true (HttpExchange.response 500 ()) 42 = 9999 ∧
    measureLatency true (HttpExchange.response 500 ()) 42 ≠ 42 := by
  decide

/-- Claim C3, amended: `measureLatency` returns the elapsed milliseconds
exactly for responses with a 2xx status; it returns the sentinel 9999 for
every non-2xx response as well as on timeout/connection failure; disabled
(`LATENCY_TEST=false`) it returns 0 whatever the network would have done. -/
theorem C3_theorem (exch : HttpExchange Unit) (elapsed : ℕ) :
    measureLatency false exch elapsed = 0 ∧
    (∀ st b, 200 ≤ st → st < 300 →
      measureLatency true (HttpExchange.response st b) elapsed = elapsed) ∧
    (∀ st b, st < 200 ∨ 300 ≤ st →
      measureLatency true (HttpExchange.response st b) elapsed = 9999) ∧
    measureLatency true HttpExchange.netError elapsed = 9999 := by
  refine ⟨rfl, ?_, ?_, rfl⟩
  · intro st b hlo hhi
    simp [measureLatency, axiosAwait, hlo, hhi]
  · intro st b hout
    have hcond : ¬(200 ≤ st ∧ st < 300) := by
      rintro ⟨h1, h2⟩
      rcases hout with h | h <;> omega
    simp [measureLatency, axiosAwait, hcond]

/-- Claim C3, witness: the amended statement at elapsed time 42, statuses
200 and 404. -/
theorem C3_witness :
    measureLatency false HttpExchange.netError 42 = 0 ∧
    measureLatency true (HttpExchange.response 200 ()) 42 = 42 ∧
    measureLatency true (HttpExchange.response 404 ()) 42 = 9999 :=
  ⟨(C3_theorem HttpExchange.netError 42).1,
   (C3_theorem HttpExchange.netError 42).2.1 200 () (by decide) (by decide),
   (C3_theorem HttpExchange.netError 42).2.2.1 404 () (Or.inr (by decide))⟩

/-- Claim C4, counterexample: an environment with a valid `SERVER_URL` and a
valid 64-hex `API_KEY` but no `NODE_NAME` fails startup validation (the
process exits 1 before any network activity), refuting the claim that
startup still succeeds with `NODE_NAME` unset. -/
theorem C4_counterexample :
    startupOk ⟨some "http://collector.example",
      some "aaaaaaaaaaaaaaaaaaaaaaaaaaaaaaaaaaaaaaaaaaaaaaaaaaaaaaaaaaaaaaaa",
      none, none, none, none⟩ = false ∧
    serverUrlValid "http://collector.example" = true ∧
    apiKeyValid "aaaaaaaaaaaaaaaaaaaaaaaaaaaaaaaaaaaaaaaaaaaaaaaaaaaaaaaaaaaaaaaa" = true := by
  decide

/-- Claim C4, amended: `NODE_NAME` is in the `requiredEnv` list, so an unset
or empty `NODE_NAME` terminates startup exactly like a missing `SERVER_URL`
or `API_KEY`; every environment that passes startup has a present, non-blank
`NODE_NAME` (the `os.hostname()` fallback inside `CONFIG` is dead code). -/
theorem C4_theorem (e : Env) :
    ((e.NODE_NAME = none ∨ e.NODE_NAME = some "") → startupOk e = false) ∧
    (startupOk e = true → envPresent e.NODE_NAME = true) := by
  constructor
  · intro h
    have hn : envPresent e.NODE_NAME = false := by
      rcases h with h | h <;> rw [h] <;> rfl
    unfold startupOk
    simp [hn]
  · intro h
    unfold startupOk at h
    simp only [Bool.and_eq_true] at h
    exact h.1.1.2

/-- Claim C4, witness: the amended statement at a concrete environment with
`NODE_NAME` unset. -/
theorem C4_witness :
    startupOk ⟨some "http://collector.example",
      some "0123456789abcdef0123456789abcdef0123456789abcdef0123456789abcdef",
      none, some "2000", none, none⟩ = false :=
  (C4_theorem _).1 (Or.inl rfl)

/-- Claim C5 (confirmed): the delay computed at the k-th consecutive failure
(0-indexed, `k < 20`) is exactly `3000 * 1.5^k` milliseconds, and
`reconnectAttempts` is reset to 0 by every successful registration and by
every successful transmission. -/
theorem C5_theorem :
    (∀ k, k < MAX_RECONNECT_ATTEMPTS →
      (scheduleReconnect (afterFailures k)).2 = some ((3000 : ℚ) * (3 / 2) ^ k)) ∧
    (∀ (s : AgentState) (rr : HttpExchange RegResponse),
      (registerStep s rr).2 = true → (registerStep s rr).1.reconnectAttempts = 0) ∧
    (∀ (lt : Bool) (env : CycleEnv) (s : AgentState),
      s.isRegistered = true → env.stats = some () →
      ∀ b : ReportResponse, axiosAwait env.post = some b →
      (sendReport lt env s).1.reconnectAttempts = 0) := by
  refine ⟨?_, ?_, ?_⟩
  · intro k hk
    have hk20 : k < 20 := by simpa [MAX_RECONNECT_ATTEMPTS] using hk
    rw [afterFailures_eq k (by omega)]
    unfold scheduleReconnect
    rw [if_neg (by simp [MAX_RECONNECT_ATTEMPTS]; omega)]
    rfl
  · intro s rr h
    rw [registerStep_of_success h]
  · intro lt env s hreg hstats b hpost
    have hens : (ensureRegistered s env.reg).2 = true := by
      rw [ensureRegistered_of_registered env.reg hreg]
    rw [sendReport_post_resolved hens hstats hpost]

/-- Claim C5, witness: delay `3000 * 1.5^3` at the third consecutive
failure; counter reset on a successful registration and on a successful
transmission from attempt count 7. -/
theorem C5_witness :
    (scheduleReconnect (afterFailures 3)).2 = some ((3000 : ℚ) * (3 / 2) ^ 3) ∧
    (registerStep ⟨false, 7, none⟩
      (HttpExchange.response 200 ⟨true⟩)).1.reconnectAttempts = 0 ∧
    (sendReport true
      ⟨HttpExchange.netError, some (), HttpExchange.netError, 0,
       HttpExchange.response 201 ⟨true⟩⟩ ⟨true, 7, none⟩).1.reconnectAttempts = 0 :=
  ⟨C5_theorem.1 3 (by decide),
   C5_theorem.2.1 _ _ (by decide),
   C5_theorem.2.2 true _ _ rfl rfl ⟨true⟩ (by decide)⟩

/-- Claim C6, counterexample: after exactly 20 consecutive recoverable
failures the process has NOT exited and the 20th failure has scheduled a
further retry (hence a further network call); only after the 21st
consecutive failure does the process exit with status 1 — refuting the
claim that termination happens after exactly 20. -/
theorem C6_counterexample :
    (afterFailures 20).exitCode = none ∧
    (sendReport true failEnv (afterFailures 19)).2.2.isSome = true ∧
    (afterFailures 21).exitCode = some 1 := by
  decide

/-- Claim C6, amended: the process exits with status 1 on the 21st
consecutive recoverable failure — the one that enters `scheduleReconnect`
with `reconnectAttempts` already at the cap of 20 — and from then on it is
absorbed: no retry is scheduled and no further cycle changes the state. -/
theorem C6_theorem (m : ℕ) :
    (afterFailures 21).exitCode = some 1 ∧
    (sendReport true failEnv (afterFailures 20)).2.2 = none ∧
    afterFailures (21 + m) = afterFailures 21 := by
  refine ⟨by decide, by decide, ?_⟩
  induction m with
  | zero => rfl
  | succ n ih =>
    have h : 21 + (n + 1) = (21 + n) + 1 := by omega
    rw [h]
    show cycleFail (afterFailures (21 + n)) = afterFailures 21
    rw [ih]
    decide

/-- Claim C6, witness: the amended statement one cycle past exhaustion. -/
theorem C6_witness :
    (afterFailures 21).exitCode = some 1 ∧ afterFailures 22 = afterFailures 21 :=
  ⟨(C6_theorem 1).1, (C6_theorem 1).2.2⟩

/-- Claim C7 (confirmed): a cycle that reaches collection and gets a null
snapshot ends at once: the collect-failed path is taken (no transmission),
no retry is scheduled (the next cycle is the interval timer's),
`reconnectAttempts` is never incremented, `isRegistered` is never set to
false — and if the agent was already registered the whole state is exactly
unchanged. -/
theorem C7_theorem (lt : Bool) (env : CycleEnv) (s : AgentState)
    (hstats : env.stats = none) (hens : (ensureRegistered s env.reg).2 = true) :
    (sendReport lt env s).2.1 = CycleOutcome.collectFailed ∧
    (sendReport lt env s).2.2 = none ∧
    (sendReport lt env s).1.reconnectAttempts ≤ s.reconnectAttempts ∧
    (sendReport lt env s).1.isRegistered = true ∧
    (s.isRegistered = true → (sendReport lt env s).1 = s) := by
  rw [sendReport_collectFailed hens hstats]
  refine ⟨rfl, rfl, ensureRegistered_attempts_le s env.reg,
    ensureRegistered_isRegistered hens, ?_⟩
  intro hr
  rw [ensureRegistered_of_registered env.reg hr]

/-- Claim C7, witness: a registered agent with 5 pending attempts and a null
snapshot ends the cycle with its state exactly unchanged. -/
theorem C7_witness :
    (sendReport true ⟨HttpExchange.netError, none, HttpExchange.netError, 0,
      HttpExchange.netError⟩ ⟨true, 5, none⟩).2.1 = CycleOutcome.collectFailed ∧
    (sendReport true ⟨HttpExchange.netError, none, HttpExchange.netError, 0,
      HttpExchange.netError⟩ ⟨true, 5, none⟩).1 = ⟨true, 5, none⟩ :=
  ⟨(C7_theorem true _ _ rfl (by decide)).1,
   (C7_theorem true _ _ rfl (by decide)).2.2.2.2 rfl⟩

/-- Claim C8 (confirmed): a transmission failure (the report POST throws:
non-2xx status or transport error) sets `isRegistered` to false, takes the
report-failed path into `scheduleReconnect`, and leaves the agent
unregistered, so the next cycle's first segment goes to registration before
any transmission. -/
theorem C8_theorem (lt : Bool) (env : CycleEnv) (s : AgentState)
    (hens : (ensureRegistered s env.reg).2 = true) (hstats : env.stats = some ())
    (hpost : axiosAwait env.post = none) :
    (sendReport lt env s).1.isRegistered = false ∧
    (sendReport lt env s).2.1 = CycleOutcome.reportFailed ∧
    (sendReport lt env s).1 =
      (scheduleReconnect { (ensureRegistered s env.reg).1 with isRegistered := false }).1 ∧
    (sendReport lt env s).2.2 =
      (scheduleReconnect { (ensureRegistered s env.reg).1 with isRegistered := false }).2 ∧
    (∀ env2 : CycleEnv, threadStep env2 (sendReport lt env s).1 PC.start
      = ((sendReport lt env s).1, PC.afterReg)) := by
  rw [sendReport_post_thrown hens hstats hpost]
  refine ⟨?_, rfl, rfl, rfl, ?_⟩
  · rw [scheduleReconnect_isRegistered]
  · intro env2
    simp only [threadStep]
    rw [if_neg (by rw [scheduleReconnect_isRegistered]; exact fun hh => Bool.noConfusion hh)]

/-- Claim C8, witness: a registered agent whose report POST gets a 500
response is de-registered and its next segment is a registration attempt. -/
theorem C8_witness :
    (sendReport true ⟨HttpExchange.netError, some (), HttpExchange.netError, 0,
      HttpExchange.response 500 ⟨true⟩⟩ ⟨true, 5, none⟩).1.isRegistered = false ∧
    (sendReport true ⟨HttpExchange.netError, some (), HttpExchange.netError, 0,
      HttpExchange.response 500 ⟨true⟩⟩ ⟨true, 5, none⟩).2.1 = CycleOutcome.reportFailed :=
  ⟨(C8_theorem true _ _ (by decide) rfl (by decide)).1,
   (C8_theorem true _ _ (by decide) rfl (by decide)).2.1⟩

/-- Claim C9 (code bug): the intended floor of 500 ms is bypassed for a
non-numeric `REPORT_INTERVAL`: `parseInt("abc")` is `NaN` and
`Math.max(500, NaN)` is `NaN`, so `CONFIG.REPORT_INTERVAL` is not `≥ 500`
for the input `"abc"` — while the default (absent) and numeric paths do
respect the floor. -/
theorem C9_theorem :
    reportIntervalConfig (some "abc") = JSNum.nan ∧
    jsGe500 (reportIntervalConfig (some "abc")) = false ∧
    reportIntervalConfig none = JSNum.num 1000 ∧
    reportIntervalConfig (some "250") = JSNum.num 500 ∧
    reportIntervalConfig (some "2000") = JSNum.num 2000 := by
  decide

/-- Claim C10 (confirmed): in every reachable state the attempt counter
stays within `0 ≤ reconnectAttempts ≤ 20` (the lower bound holds by the
counter being a natural number), and once the cap is reached
`scheduleReconnect` exits the process (status 1) without incrementing. -/
theorem C10_theorem :
    (∀ s : AgentState, Reachable s → s.reconnectAttempts ≤ MAX_RECONNECT_ATTEMPTS) ∧
    (∀ s : AgentState, MAX_RECONNECT_ATTEMPTS ≤ s.reconnectAttempts →
      (scheduleReconnect s).1.reconnectAttempts = s.reconnectAttempts ∧
      (scheduleReconnect s).1.exitCode = some 1) := by
  constructor
  · intro s h
    induction h with
    | init => exact Nat.zero_le _
    | step env pc h ih => exact threadStep_attempts_le env pc ih
  · intro s h
    unfold scheduleReconnect
    rw [if_pos h]
    exact ⟨rfl, rfl⟩

/-- Claim C10, witness: the invariant at the initial state, and the
exit-without-increment behaviour at the cap. -/
theorem C10_witness :
    initState.reconnectAttempts ≤ MAX_RECONNECT_ATTEMPTS ∧
    (scheduleReconnect ⟨true, 20, none⟩).1.reconnectAttempts = 20 ∧
    (scheduleReconnect ⟨true, 20, none⟩).1.exitCode = some 1 :=
  ⟨C10_theorem.1 initState Reachable.init,
   (C10_theorem.2 ⟨true, 20, none⟩ (by decide)).1,
   (C10_theorem.2 ⟨true, 20, none⟩ (by decide)).2⟩

end Agent
